import Mathlib

/-!
Verification of the inter-process coordination protocol of the GUI framework
(handshake, listener-table dispatch, page-session state), shallowly embedded
from `src/engine/app_bases.py` and `src/app.py`.

Channels (`multiprocessing` queues) are modelled as FIFO lists of messages:
the head is the oldest pending message, `get()` pops the head, `put` appends,
`empty()` is emptiness of the list.  Fatal terminations (uncaught assertion
errors, `KeyError` lookups, the deliberate `1/0` in `_exit_program`) are
modelled with explicit failure results carrying the process state at the
moment of death.  Time is measured in ticks of 0.1 time units, the fixed
polling interval used by every sleep in the source (`time.sleep(0.1)`).
-/

namespace GuiFw

/-- A message tag, the string key routing a message to a listener. -/
abbrev Tag := String

/-- A message payload: `parameters`, a list of opaque values (modelled as
strings; the protocol only ever carries page-name strings). -/
abbrev Payload := List String

/-- A message on a channel: the `(listener_key, parameters)` pair produced by
`Base_Front_End.send` / `Base_Back_End.send`. -/
abbrev Msg := Tag × Payload

/-- Result of running a piece of process code: either it finishes normally in
state `s`, or the process dies (`fatal`) with a diagnostic, leaving state `s`
behind (uncaught assertion, `KeyError`, or the `1/0` in `_exit_program`). -/
inductive Res (σ : Type) where
  | ok (s : σ)
  | fatal (s : σ) (diag : String)
deriving DecidableEq, Repr

/-- A registered page of the front-end (`Base_Page`); only its `name` matters
to the protocol. -/
structure Page where
  name : String
deriving DecidableEq, Repr

/-- Python-style list indexing: a negative index `i` addresses element
`len + i`; out-of-range gives `none` (an `IndexError` in the source). -/
def pyGet (l : List Page) (i : Int) : Option Page :=
  if 0 ≤ i then l.get? i.toNat
  else if 0 ≤ (l.length : Int) + i then l.get? ((l.length : Int) + i).toNat
  else none

/-- Observable state of the front-end process (`Base_Front_End`), restricted
to the protocol-relevant fields. `listeners` holds the keys of the
`self.listeners` dict (the behaviour bound to each key is fixed by
`__init__`); `invoked` records, in order, each listener invocation together
with the argument tuple it was called with (`none` = called with no
positional argument, `some p` = called with the payload `p`). -/
structure FES where
  listeners : List Tag
  existing_pages : List Page
  active_page_idx : Int
  to_backend : List Msg
  running : Bool
  invoked : List (Tag × Option Payload)
deriving DecidableEq, Repr

/-- The listener keys installed by `Base_Front_End.__init__` (lines 119-123). -/
def frontEndListenerKeys : List Tag :=
  ["back-end initialised", "exit program", "pagename request"]

/-- `Base_Front_End.__init__`: empty page list, `active_page_idx = -1`, the
three listeners, and the initial `self.send("front-end alive")`. -/
def feInit : FES :=
  { listeners := frontEndListenerKeys
    existing_pages := []
    active_page_idx := -1
    to_backend := [("front-end alive", [])]
    running := false
    invoked := [] }

/-- `Base_Front_End.add_page`: appends to `existing_pages`. -/
def add_page (st : FES) (p : Page) : FES :=
  { st with existing_pages := st.existing_pages ++ [p] }

/-- A front-end that registered the given pages in order and never called
`change_page` (as `Front_End.__init__` does with its single example page). -/
def feWithPages (pages : List Page) : FES :=
  pages.foldl add_page feInit

/-- `Base_Front_End.send`: enqueue `(listener_key, parameters)` on
`to_backend`. -/
def fe_send (st : FES) (tag : Tag) (params : Payload) : FES :=
  { st with to_backend := st.to_backend ++ [(tag, params)] }

/-- `Base_Front_End._exit_program`: print the diagnostic, send
`exit program` to the peer, then die (`1/0`). -/
def fe_exit_program (st : FES) (diag : String) : Res FES :=
  .fatal (fe_send st "exit program" []) diag

/-- The `Base_Front_End.pagename` property: fatal when no page exists,
otherwise Python indexing of `existing_pages` at `active_page_idx`
(out-of-range is an uncaught `IndexError`). -/
def pagename (st : FES) : Res (FES × String) :=
  if st.existing_pages.length < 1 then
    match fe_exit_program st "current page querried but no pages exist" with
    | .ok s => .ok (s, "")
    | .fatal s d => .fatal (s, "") d
  else
    match pyGet st.existing_pages st.active_page_idx with
    | some p => .ok (st, p.name)
    | none => .fatal (st, "") "IndexError: list index out of range"

/-- The behaviour bound to each front-end listener key:
`back-end initialised` runs `_launch_main_loop` (deletes its own table entry,
then `run()`), `exit program` runs `_exit_program` with its default message,
`pagename request` runs `_send_pagename` (reads the `pagename` property and
sends `pagename received` with the one-element payload). Any other key is
unreachable through the table and modelled as a `KeyError`. -/
def fe_invoke (st : FES) (tag : Tag) : Res FES :=
  if tag = "back-end initialised" then
    .ok { st with listeners := st.listeners.erase "back-end initialised",
                  running := true }
  else if tag = "exit program" then
    fe_exit_program st "exiting program (no message)"
  else if tag = "pagename request" then
    match pagename st with
    | .ok (st1, nm) => .ok (fe_send st1 "pagename received" [nm])
    | .fatal s d => .fatal s.1 d
  else .fatal st ("KeyError: " ++ tag)

/-- One dispatch of a received message `(tag, data)` by the front-end:
`self.listeners[msg]()` — the dict lookup raises `KeyError` when the tag has
no entry, otherwise the listener is called with NO positional argument (the
received `data` is discarded), which is recorded as `(tag, none)`. -/
def fe_dispatch_one (st : FES) (tag : Tag) (_data : Payload) : Res FES :=
  if tag ∈ st.listeners then
    fe_invoke { st with invoked := st.invoked ++ [(tag, none)] } tag
  else .fatal st ("KeyError: " ++ tag)

/-- The drain loop of `Base_Front_End.one_frame` (lines 159-161):
`while not self.from_backend.empty(): msg, data = self.from_backend.get();
self.listeners[msg]()`. `inbox` is the content of `from_backend` at loop
entry, oldest first; the loop continues exactly while the inbound channel is
non-empty. -/
def one_frame_drain (st : FES) : List Msg → Res FES
  | [] => .ok st
  | (tag, _data) :: rest =>
    match fe_dispatch_one st tag _data with
    | .ok st1 => one_frame_drain st1 rest
    | .fatal s d => .fatal s d

/-- An observable action of the back-end, for ordering arguments:
`sent t` = a `put` of a message tagged `t` on `to_frontend`,
`dispatched t` = the start of `self.listeners[t](...)` for a received
message tagged `t`. -/
inductive BEv where
  | sent (t : Tag)
  | dispatched (t : Tag)
deriving DecidableEq, Repr

/-- Observable state of the back-end process (`Base_Back_End`), restricted to
the protocol-relevant fields, with the same `invoked` record as `FES` plus an
ordered `events` log of sends and dispatches. -/
structure BES where
  listeners : List Tag
  to_frontend : List Msg
  pagename_now : String
  invoked : List (Tag × Option Payload)
  events : List BEv
deriving DecidableEq, Repr

/-- The listener keys installed by `Base_Back_End.__init__` (lines 218-221). -/
def backEndListenerKeys : List Tag := ["exit program", "pagename received"]

/-- `Base_Back_End.__init__`: the two listeners and the initial sentinel
`pagename_now = "no page"`. -/
def beInit : BES :=
  { listeners := backEndListenerKeys
    to_frontend := []
    pagename_now := "no page"
    invoked := []
    events := [] }

/-- `Base_Back_End.send`: enqueue on `to_frontend` and log the send. -/
def be_send (st : BES) (tag : Tag) (params : Payload) : BES :=
  { st with to_frontend := st.to_frontend ++ [(tag, params)]
            events := st.events ++ [.sent tag] }

/-- `Base_Back_End._exit_program`: send `exit program` to the peer, print the
diagnostic, then die (`1/0`). -/
def be_exit_program (st : BES) (diag : String) : Res BES :=
  .fatal (be_send st "exit program" []) diag

/-- The behaviour bound to each back-end listener key when called with the
received payload as single argument (`self.listeners[msg](data)`):
`exit program` runs `_exit_program` with the payload as its message argument,
`pagename received` runs `_update_page_name`, storing `parameters[0]`
(an uncaught `IndexError` when the payload is empty). Any other key is
unreachable through the table and modelled as a `KeyError`. -/
def be_invoke (st : BES) (tag : Tag) (data : Payload) : Res BES :=
  if tag = "exit program" then
    be_exit_program st (String.intercalate ", " data)
  else if tag = "pagename received" then
    match data with
    | [] => .fatal st "IndexError: list index out of range"
    | p :: _ => .ok { st with pagename_now := p }
  else .fatal st ("KeyError: " ++ tag)

/-- One dispatch of a received message `(tag, data)` by the back-end:
`self.listeners[msg](data)` — `KeyError` when the tag has no entry, otherwise
the listener is called with the payload as argument, recorded as
`(tag, some data)` and logged as a `dispatched` event. -/
def be_dispatch_one (st : BES) (tag : Tag) (data : Payload) : Res BES :=
  if tag ∈ st.listeners then
    be_invoke { st with invoked := st.invoked ++ [(tag, some data)]
                        events := st.events ++ [.dispatched tag] } tag data
  else .fatal st ("KeyError: " ++ tag)

/-- Result of the inner drain of `Back_End.page_dispatcher`: normal
completion returns the state together with the `pagename_received` flag. -/
inductive DRes where
  | ok (st : BES) (pagename_received : Bool)
  | fatal (st : BES) (diag : String)
deriving DecidableEq, Repr

/-- The flag-and-retry step that `Back_End.page_dispatcher` performs on a
popped message BEFORE dispatching it (`src/app.py` lines 39-43): if the tag
is `pagename received` set the `pagename_received` flag; otherwise, if
`to_frontend` is currently empty, re-send `pagename request`. -/
def page_pre (st : BES) (pr : Bool) (tag : Tag) : BES × Bool :=
  if tag = "pagename received" then (st, true)
  else if st.to_frontend = [] then (be_send st "pagename request" [], pr)
  else (st, pr)

/-- The inner drain of `Back_End.page_dispatcher` (`src/app.py` lines 37-44):
`while not self.from_frontend.empty():` take a message; apply `page_pre`
(flag or conditional re-send); then in all cases dispatch the message
through the listener table with its payload. `inbox` is the content of
`from_frontend`, oldest first. -/
def page_drain (st : BES) (pr : Bool) : List Msg → DRes
  | [] => .ok st pr
  | (tag, data) :: rest =>
    match be_dispatch_one (page_pre st pr tag).1 tag data with
    | .ok st2 => page_drain st2 (page_pre st pr tag).2 rest
    | .fatal s d => .fatal s d

/-- Result of the drain of `Back_End.loop_entry_page`: `ok` when the loop
guard fails (taking the remaining inbound content along), `blocked` when the
guard holds but `from_frontend.get()` has nothing to return (the real call
blocks forever). -/
inductive ERes where
  | ok (st : BES) (inbox : List Msg)
  | blocked (st : BES)
  | fatal (st : BES) (diag : String)
deriving DecidableEq, Repr

/-- A back-end listener called with NO positional argument, as
`loop_entry_page` does (`self.listeners[msg]()`): `exit program` gets its
default message; `pagename received` is `_update_page_name` missing its
required `parameters` argument, an uncaught `TypeError`. -/
def be_invoke_noargs (st : BES) (tag : Tag) : Res BES :=
  if tag = "exit program" then
    be_exit_program st "exiting program (no message)"
  else if tag = "pagename received" then
    .fatal st "TypeError: _update_page_name missing required argument"
  else .fatal st ("KeyError: " ++ tag)

/-- The drain of `Back_End.loop_entry_page` (`src/app.py` lines 56-58):
`while not self.to_frontend.empty(): msg, data = self.from_frontend.get();
self.listeners[msg]()` — the loop guard reads the OUTBOUND channel
`to_frontend`, while messages are popped from the inbound `from_frontend`
(`inbox`), and listeners are called without the payload. -/
def entry_drain (st : BES) : List Msg → ERes
  | [] => if st.to_frontend = [] then .ok st [] else .blocked st
  | (tag, data) :: rest =>
    if st.to_frontend = [] then .ok st ((tag, data) :: rest)
    else
      if tag ∈ st.listeners then
        match be_invoke_noargs { st with invoked := st.invoked ++ [(tag, none)]
                                         events := st.events ++ [.dispatched tag] } tag with
        | .ok st1 => entry_drain st1 rest
        | .fatal s d => .fatal s d
      else .fatal st ("KeyError: " ++ tag)

/-- The page-selection step of `Back_End.page_dispatcher`
(`src/app.py` lines 46-49): run the entry-page loop when `pagename_now` is
`"entry page"`, otherwise `_exit_program` with a diagnostic naming the
unknown page. -/
def select_page (st : BES) : Res BES :=
  if st.pagename_now = "entry page" then .ok st
  else be_exit_program st
    ("received an unknown page name from front end: " ++ st.pagename_now)

/-- `Base_Back_End.launch_process` (lines 223-233), the wait for
`front-end alive`.  There is no sleep on this path: the code immediately
asserts `not self.from_frontend.empty()`; any failed assertion is caught by
the bare `except`, which sends a message whose TAG is the diagnostic text
and returns `False`.  Result: `(front_end_ready, state, remaining channel)`.
`fb` is the content of `from_frontend` at the check. -/
def waitForAlive (st : BES) (fb : List Msg) : Bool × BES × List Msg :=
  match fb with
  | [] =>
    (false, be_send st "front end gave no sign of life: exiting program" [], [])
  | (tag, _) :: rest =>
    if rest = [] ∧ tag = "front-end alive" then (true, st, rest)
    else
      (false, be_send st "front end gave no sign of life: exiting program" [], rest)

/-- The polling loop of step 4 of `Back_End.launch_process`
(`src/app.py` lines 74-80) on a channel that stays empty: starting from a
`waiting_length` of `w` ticks, sleep one tick, increment, and stop once the
total exceeds 50 ticks (5.0 time units at 0.1 per tick); returns the number
of ticks elapsed when `_exit_program` is reached. -/
def ackTicks (w : Nat) : Nat :=
  if 50 < w + 1 then w + 1 else ackTicks (w + 1)
termination_by 51 - w

/-- Result of step 4 and step 5 of `Back_End.launch_process`: either the
back-end reaches `self.page_dispatcher()` (`dispatcher`), or the bounded
wait times out (`timeout`, with the elapsed ticks, after `_exit_program`
sent `exit program`), or an assertion died uncaught (`fatal`, no send). -/
inductive ARes where
  | dispatcher (st : BES)
  | timeout (st : BES) (elapsedTicks : Nat)
  | fatal (st : BES) (diag : String)
deriving DecidableEq, Repr

/-- Steps 4-5 of `Back_End.launch_process` (`src/app.py` lines 73-87): poll
`from_frontend` every tick, `_exit_program` once `waiting_length` exceeds
5.0; otherwise pop exactly one message, assert that nothing else is queued
and that the tag is `front-end main loop launching`, set
`pagename_now = "entry page"` and enter `page_dispatcher`.  `fb` is the
channel content when the acknowledgement becomes available (`[]` = no
message ever arrives). -/
def waitForAck (st : BES) (fb : List Msg) : ARes :=
  match fb with
  | [] => .timeout (be_send st "exit program" []) (ackTicks 0)
  | (tag, _) :: rest =>
    if rest ≠ [] then
      .fatal st "front end posted multiple messages when only waiting for front-end main loop launching"
    else if tag ≠ "front-end main loop launching" then
      .fatal st ("expected message from front end: front-end main loop launching but received: " ++ tag)
    else .dispatcher { st with pagename_now := "entry page" }

/-- Result of the whole `Back_End.launch_process`: `noAlive` is the
`return` after `super().launch_process()` came back `False` (with the ticks
slept while waiting for `front-end alive`, which is always `0`). -/
inductive LRes where
  | dispatcher (st : BES)
  | noAlive (st : BES) (elapsedTicks : Nat)
  | timeout (st : BES) (elapsedTicks : Nat)
  | fatal (st : BES) (diag : String)
deriving DecidableEq, Repr

/-- `Back_End.launch_process` (`src/app.py` lines 60-87) end to end:
check for `front-end alive` (no polling), send `back-end initialised`, wait
for the acknowledgement, then enter the page dispatcher.  `fbStart` is the
content of `from_frontend` at the liveness check, `fbAck` its content when
the acknowledgement wait finds it non-empty (`[]` = never). -/
def be_launch (st : BES) (fbStart fbAck : List Msg) : LRes :=
  match waitForAlive st fbStart with
  | (false, st1, _) => .noAlive st1 0
  | (true, st1, _) =>
    let st2 := be_send st1 "back-end initialised" []
    match waitForAck st2 fbAck with
    | .dispatcher s => .dispatcher s
    | .timeout s n => .timeout s n
    | .fatal s d => .fatal s d

/-- Result of `Base_Front_End.wait_for_backend_ready`: `ok` delivers the
front-end state after `self.listeners[msg]()` returned (which only happens
if the listener returns, i.e. the main loop is modelled as returning
control); `blocked` is the un-bounded `while self.from_backend.empty()`
poll when no message ever arrives. -/
inductive WRes where
  | ok (st : FES)
  | blocked (st : FES)
  | fatal (st : FES) (diag : String)
deriving DecidableEq, Repr

/-- `Base_Front_End.wait_for_backend_ready` (lines 182-192): poll
`from_backend` (no timeout) until non-empty, pop one message, assert that
nothing else is queued and that the tag is `back-end initialised`, THEN send
`front-end main loop launching`, THEN invoke `self.listeners[msg]()` through
the table.  `bf` is the channel content when it becomes non-empty
(`[]` = never). -/
def wait_for_backend_ready (st : FES) (bf : List Msg) : WRes :=
  match bf with
  | [] => .blocked st
  | (tag, data) :: rest =>
    if rest ≠ [] then
      .fatal st "back end sent multiple messages to front end when signaling init finished"
    else if tag ≠ "back-end initialised" then
      .fatal st ("expecting message: back-end initialised, but received: " ++ tag)
    else
      match fe_dispatch_one (fe_send st "front-end main loop launching" []) tag data with
      | .ok s => .ok s
      | .fatal s d => .fatal s d

/-! ### Interleaved handshake semantics

The two processes run concurrently; only the two queues are shared.  Each
process is sequential, so a run is determined by the interleaving of their
steps.  We model the handshake phase (up to the back-end entering the page
dispatcher and the front-end entering its run loop) as a deterministic step
function per process over a shared state, executed under an arbitrary finite
schedule. -/

/-- Which process takes the next step. -/
inductive Side where
  | fe
  | be
deriving DecidableEq, Repr

/-- An observable protocol event: a `put` of a message tagged `t` by side
`s`, or a `get` (consumption) of a message tagged `t` by side `s`. -/
inductive Ev where
  | send (s : Side) (t : Tag)
  | consume (s : Side) (t : Tag)
deriving DecidableEq, Repr

/-- Front-end control point during the handshake:
`start` = before `__init__` sends `front-end alive`;
`wait` = polling inside `wait_for_backend_ready`;
`gotInit` = message consumed, both assertions passed, reply not yet sent;
`run` = steady-state main loop entered;
`dead` = uncaught assertion error. -/
inductive FPC where
  | start
  | wait
  | gotInit
  | run
  | dead
deriving DecidableEq, Repr

/-- Back-end control point during the handshake:
`start` = worker entry, before the `front-end alive` check;
`postAlive` = liveness confirmed, `back-end initialised` not yet sent;
`waitAck n` = polling in step 4 with `waiting_length` at `n` ticks;
`steady` = `page_dispatcher` entered; `dead` = terminated on failure. -/
inductive BPC where
  | start
  | postAlive
  | waitAck (n : Nat)
  | steady
  | dead
deriving DecidableEq, Repr

/-- Shared state of a handshake run: the two channels, each process's
control point, and the global event log. -/
structure HS where
  fb : List Msg
  bf : List Msg
  fpc : FPC
  bpc : BPC
  trace : List Ev
deriving DecidableEq, Repr

/-- One scheduling step of the front-end.  `start`: the
`self.send("front-end alive")` closing `Base_Front_End.__init__`.  `wait`:
one iteration of `wait_for_backend_ready` — sleep when `from_backend` is
empty, otherwise pop one message and run the two assertions (a failure is an
uncaught `AssertionError`: `dead`).  `gotInit`: send the acknowledgement and
transfer into the run loop via the table. -/
def feStep (s : HS) : HS :=
  match s.fpc with
  | .start =>
    { s with fb := s.fb ++ [("front-end alive", [])]
             trace := s.trace ++ [.send .fe "front-end alive"]
             fpc := .wait }
  | .wait =>
    match s.bf with
    | [] => s
    | (tag, _) :: rest =>
      if rest = [] ∧ tag = "back-end initialised" then
        { s with bf := rest, trace := s.trace ++ [.consume .fe tag], fpc := .gotInit }
      else
        { s with bf := rest, trace := s.trace ++ [.consume .fe tag], fpc := .dead }
  | .gotInit =>
    { s with fb := s.fb ++ [("front-end main loop launching", [])]
             trace := s.trace ++ [.send .fe "front-end main loop launching"]
             fpc := .run }
  | .run => s
  | .dead => s

/-- One scheduling step of the back-end.  `start`: the liveness check of
`Base_Back_End.launch_process` — when the channel is empty the assertion
fails at once and the `except` branch sends its diagnostic-tagged message;
otherwise pop one message and run the two assertions (failures take the same
`except` branch).  `postAlive`: send `back-end initialised`.  `waitAck n`:
one iteration of the step-4 poll — on an empty channel sleep one tick and
`_exit_program` past 50 ticks; otherwise pop one message and run the two
assertions (a failure is an uncaught `AssertionError`: `dead`), then set
`pagename_now` and enter the page dispatcher. -/
def beStep (s : HS) : HS :=
  match s.bpc with
  | .start =>
    match s.fb with
    | [] =>
      { s with bf := s.bf ++ [("front end gave no sign of life: exiting program", [])]
               trace := s.trace ++ [.send .be "front end gave no sign of life: exiting program"]
               bpc := .dead }
    | (tag, _) :: rest =>
      if rest = [] ∧ tag = "front-end alive" then
        { s with fb := rest, trace := s.trace ++ [.consume .be tag], bpc := .postAlive }
      else
        { s with fb := rest
                 bf := s.bf ++ [("front end gave no sign of life: exiting program", [])]
                 trace := s.trace ++
                   [.consume .be tag, .send .be "front end gave no sign of life: exiting program"]
                 bpc := .dead }
  | .postAlive =>
    { s with bf := s.bf ++ [("back-end initialised", [])]
             trace := s.trace ++ [.send .be "back-end initialised"]
             bpc := .waitAck 0 }
  | .waitAck n =>
    match s.fb with
    | [] =>
      if 50 < n + 1 then
        { s with bf := s.bf ++ [("exit program", [])]
                 trace := s.trace ++ [.send .be "exit program"]
                 bpc := .dead }
      else { s with bpc := .waitAck (n + 1) }
    | (tag, _) :: rest =>
      if rest = [] ∧ tag = "front-end main loop launching" then
        { s with fb := rest, trace := s.trace ++ [.consume .be tag], bpc := .steady }
      else
        { s with fb := rest, trace := s.trace ++ [.consume .be tag], bpc := .dead }
  | .steady => s
  | .dead => s

/-- Apply the step of the scheduled side. -/
def sideStep (c : Side) (s : HS) : HS :=
  match c with
  | .fe => feStep s
  | .be => beStep s

/-- The initial shared state: both channels empty, both processes at their
entry points, nothing observed. -/
def hsInit : HS := ⟨[], [], .start, .start, []⟩

/-- Execute a finite schedule from the initial state. -/
def sched_run (l : List Side) : HS := l.foldl (fun s c => sideStep c s) hsInit

/-- A schedule is a valid run when it completes the handshake: the front-end
reached its run loop and the back-end reached the page dispatcher. -/
def ValidRun (l : List Side) : Prop :=
  (sched_run l).fpc = .run ∧ (sched_run l).bpc = .steady

/-- The tags sent, in order, across both channels. -/
def sentTags (t : List Ev) : List Tag :=
  t.filterMap (fun e => match e with | .send _ tag => some tag | .consume _ _ => none)

/-- The complete event log of a successful handshake. -/
def handshakeTrace : List Ev :=
  [.send .fe "front-end alive", .consume .be "front-end alive",
   .send .be "back-end initialised", .consume .fe "back-end initialised",
   .send .fe "front-end main loop launching", .consume .be "front-end main loop launching"]

/-- Reachability invariant of the handshake semantics: every reachable state
is one of the seven states on the successful path (three of them
parametrised by the step-4 poll counter), or has a dead process. -/
def Inv (s : HS) : Prop :=
  s = ⟨[], [], .start, .start, []⟩
  ∨ s = ⟨[("front-end alive", [])], [], .wait, .start, handshakeTrace.take 1⟩
  ∨ s = ⟨[], [], .wait, .postAlive, handshakeTrace.take 2⟩
  ∨ (∃ n, s = ⟨[], [("back-end initialised", [])], .wait, .waitAck n, handshakeTrace.take 3⟩)
  ∨ (∃ n, s = ⟨[], [], .gotInit, .waitAck n, handshakeTrace.take 4⟩)
  ∨ (∃ n, s = ⟨[("front-end main loop launching", [])], [], .run, .waitAck n, handshakeTrace.take 5⟩)
  ∨ s = ⟨[], [], .run, .steady, handshakeTrace⟩
  ∨ s.fpc = .dead ∨ s.bpc = .dead

/-- The invocation record left behind by a front-end computation, whether it
finished or died. -/
def resInvoked : Res FES → List (Tag × Option Payload)
  | .ok s => s.invoked
  | .fatal s _ => s.invoked

/-- The `pagename_now` field left behind by a back-end computation, whether
it finished or died. -/
def resPagenameNow : Res BES → String
  | .ok s => s.pagename_now
  | .fatal s _ => s.pagename_now

/-- The event log left behind by a back-end computation, whether it finished
or died. -/
def resEvents : Res BES → List BEv
  | .ok s => s.events
  | .fatal s _ => s.events

/-- The event log left behind by a run of the page-dispatcher drain. -/
def dresEvents : DRes → List BEv
  | .ok s _ => s.events
  | .fatal s _ => s.events

/-! ### Handshake invariant -/

theorem feStep_bpc (s : HS) : (feStep s).bpc = s.bpc := by
  unfold feStep
  split
  · rfl
  · split
    · rfl
    · split <;> rfl
  · rfl
  · rfl
  · rfl

theorem beStep_fpc (s : HS) : (beStep s).fpc = s.fpc := by
  unfold beStep
  split
  · split
    · rfl
    · split <;> rfl
  · rfl
  · split
    · split <;> rfl
    · split <;> rfl
  · rfl
  · rfl

theorem feStep_of_fdead (s : HS) (h : s.fpc = .dead) : feStep s = s := by
  unfold feStep
  split <;> simp_all

theorem beStep_of_bdead (s : HS) (h : s.bpc = .dead) : beStep s = s := by
  unfold beStep
  split <;> simp_all

theorem inv_feStep (s : HS) (h : Inv s) : Inv (feStep s) := by
  rcases h with h | h | h | ⟨n, h⟩ | ⟨n, h⟩ | ⟨n, h⟩ | h | h | h
  · subst h; exact Or.inr (Or.inl (by decide))
  · subst h; exact Or.inr (Or.inl (by decide))
  · subst h; exact Or.inr (Or.inr (Or.inl (by decide)))
  · subst h; exact Or.inr (Or.inr (Or.inr (Or.inr (Or.inl ⟨n, rfl⟩))))
  · subst h; exact Or.inr (Or.inr (Or.inr (Or.inr (Or.inr (Or.inl ⟨n, rfl⟩)))))
  · subst h; exact Or.inr (Or.inr (Or.inr (Or.inr (Or.inr (Or.inl ⟨n, rfl⟩)))))
  · subst h; exact Or.inr (Or.inr (Or.inr (Or.inr (Or.inr (Or.inr (Or.inl rfl))))))
  · rw [feStep_of_fdead s h]
    exact Or.inr (Or.inr (Or.inr (Or.inr (Or.inr (Or.inr (Or.inr (Or.inl h)))))))
  · exact Or.inr (Or.inr (Or.inr (Or.inr (Or.inr (Or.inr (Or.inr (Or.inr
      ((feStep_bpc s).trans h))))))))

theorem inv_beStep (s : HS) (h : Inv s) : Inv (beStep s) := by
  rcases h with h | h | h | ⟨n, h⟩ | ⟨n, h⟩ | ⟨n, h⟩ | h | h | h
  · subst h
    exact Or.inr (Or.inr (Or.inr (Or.inr (Or.inr (Or.inr (Or.inr (Or.inr (by decide))))))))
  · subst h; exact Or.inr (Or.inr (Or.inl (by decide)))
  · subst h; exact Or.inr (Or.inr (Or.inr (Or.inl ⟨0, by decide⟩)))
  · subst h
    rcases Nat.lt_or_ge 50 (n + 1) with h50 | h50
    · refine Or.inr (Or.inr (Or.inr (Or.inr (Or.inr (Or.inr (Or.inr (Or.inr ?_)))))))
      simp [beStep, h50]
    · refine Or.inr (Or.inr (Or.inr (Or.inl ⟨n + 1, ?_⟩)))
      simp [beStep, Nat.not_lt.mpr h50]
  · subst h
    rcases Nat.lt_or_ge 50 (n + 1) with h50 | h50
    · refine Or.inr (Or.inr (Or.inr (Or.inr (Or.inr (Or.inr (Or.inr (Or.inr ?_)))))))
      simp [beStep, h50]
    · refine Or.inr (Or.inr (Or.inr (Or.inr (Or.inl ⟨n + 1, ?_⟩))))
      simp [beStep, Nat.not_lt.mpr h50]
  · subst h
    exact Or.inr (Or.inr (Or.inr (Or.inr (Or.inr (Or.inr (Or.inl rfl))))))
  · subst h
    exact Or.inr (Or.inr (Or.inr (Or.inr (Or.inr (Or.inr (Or.inl rfl))))))
  · exact Or.inr (Or.inr (Or.inr (Or.inr (Or.inr (Or.inr (Or.inr (Or.inl
      ((beStep_fpc s).trans h))))))))
  · rw [beStep_of_bdead s h]
    exact Or.inr (Or.inr (Or.inr (Or.inr (Or.inr (Or.inr (Or.inr (Or.inr h)))))))

theorem inv_sideStep (c : Side) (s : HS) (h : Inv s) : Inv (sideStep c s) := by
  cases c
  · exact inv_feStep s h
  · exact inv_beStep s h

theorem inv_foldl (l : List Side) (s : HS) (h : Inv s) :
    Inv (l.foldl (fun s c => sideStep c s) s) := by
  induction l generalizing s with
  | nil => exact h
  | cons c rest ih => exact ih (sideStep c s) (inv_sideStep c s h)

theorem sched_inv (l : List Side) : Inv (sched_run l) :=
  inv_foldl l hsInit (Or.inl rfl)

/-- A valid run ends in the unique successful final state, whose event log
is the canonical six-event handshake trace. -/
theorem valid_final (l : List Side) (h : ValidRun l) :
    sched_run l = ⟨[], [], .run, .steady, handshakeTrace⟩ := by
  obtain ⟨hf, hb⟩ := h
  rcases sched_inv l with h1 | h1 | h1 | ⟨n, h1⟩ | ⟨n, h1⟩ | ⟨n, h1⟩ | h1 | h1 | h1
  · rw [h1] at hf; exact absurd hf (by decide)
  · rw [h1] at hf; exact absurd hf (by decide)
  · rw [h1] at hf; exact absurd hf (by decide)
  · rw [h1] at hb; exact absurd hb (by simp)
  · rw [h1] at hf; exact absurd hf (by simp)
  · rw [h1] at hb; exact absurd hb (by simp)
  · exact h1
  · rw [h1] at hf; exact absurd hf (by decide)
  · rw [h1] at hb; exact absurd hb (by decide)

/-- C1: in every valid run (handshake completed under any interleaving), the
tag sequence observed across the two channels contains `front-end alive`,
`back-end initialised` and `front-end main loop launching` each exactly once
and in that relative order; the front-end sends `front-end alive` before any
other event, the back-end sends `back-end initialised` only after consuming
`front-end alive`, and the front-end sends `front-end main loop launching`
only after consuming `back-end initialised`. -/
theorem C1_handshake_tag_order (l : List Side) (h : ValidRun l) :
    ((sentTags (sched_run l).trace).count "front-end alive" = 1
      ∧ (sentTags (sched_run l).trace).count "back-end initialised" = 1
      ∧ (sentTags (sched_run l).trace).count "front-end main loop launching" = 1)
    ∧ ((sentTags (sched_run l).trace).indexOf "front-end alive"
        < (sentTags (sched_run l).trace).indexOf "back-end initialised"
      ∧ (sentTags (sched_run l).trace).indexOf "back-end initialised"
        < (sentTags (sched_run l).trace).indexOf "front-end main loop launching")
    ∧ (sched_run l).trace.head? = some (.send .fe "front-end alive")
    ∧ (Ev.consume .be "front-end alive" ∈ (sched_run l).trace
      ∧ (sched_run l).trace.indexOf (Ev.consume .be "front-end alive")
        < (sched_run l).trace.indexOf (Ev.send .be "back-end initialised"))
    ∧ (Ev.consume .fe "back-end initialised" ∈ (sched_run l).trace
      ∧ (sched_run l).trace.indexOf (Ev.consume .fe "back-end initialised")
        < (sched_run l).trace.indexOf (Ev.send .fe "front-end main loop launching")) := by
  rw [valid_final l h]
  decide

/-- Witness for C1: the canonical interleaving is a valid run. -/
theorem C1_handshake_tag_order_witness :
    ValidRun [.fe, .be, .be, .fe, .fe, .be]
    ∧ ((sentTags (sched_run [.fe, .be, .be, .fe, .fe, .be]).trace).count "front-end alive" = 1
      ∧ (sentTags (sched_run [.fe, .be, .be, .fe, .fe, .be]).trace).count "back-end initialised" = 1
      ∧ (sentTags (sched_run [.fe, .be, .be, .fe, .fe, .be]).trace).count "front-end main loop launching" = 1) :=
  ⟨⟨by decide, by decide⟩,
   (C1_handshake_tag_order [.fe, .be, .be, .fe, .fe, .be] ⟨by decide, by decide⟩).1⟩

/-! ### Listener-table dispatch and page-session theorems -/

theorem foldl_add_page_pages (l : List Page) (st : FES) :
    (l.foldl add_page st).existing_pages = st.existing_pages ++ l := by
  induction l generalizing st with
  | nil => simp
  | cons p rest ih => simp [ih, add_page]

theorem foldl_add_page_idx (l : List Page) (st : FES) :
    (l.foldl add_page st).active_page_idx = st.active_page_idx := by
  induction l generalizing st with
  | nil => rfl
  | cons p rest ih => rw [List.foldl_cons, ih]; rfl

theorem feWithPages_pages (pages : List Page) :
    (feWithPages pages).existing_pages = pages := by
  simp [feWithPages, foldl_add_page_pages, feInit]

theorem feWithPages_idx (pages : List Page) :
    (feWithPages pages).active_page_idx = -1 := by
  simp [feWithPages, foldl_add_page_idx, feInit]

theorem getq_length_sub_one (l : List Page) (h : l ≠ []) :
    l.get? (l.length - 1) = some (l.getLast h) := by
  induction l with
  | nil => exact absurd rfl h
  | cons p rest ih =>
    cases rest with
    | nil => rfl
    | cons q tail =>
      have hne : q :: tail ≠ [] := by simp
      have := ih hne
      simpa [List.getLast] using this

/-- C10: a front-end with at least one registered page, on which
`change_page` was never invoked, keeps `active_page_idx` at its initial
`-1`; reading the `pagename` property then succeeds (Python negative
indexing selects the last list element) and returns the name of the most
recently added page. -/
theorem C10_default_pagename_is_last_page (pages : List Page) (h : pages ≠ []) :
    pagename (feWithPages pages) = .ok (feWithPages pages, (pages.getLast h).name) := by
  have hlen : ¬ (feWithPages pages).existing_pages.length < 1 := by
    rw [feWithPages_pages]
    cases pages with
    | nil => exact absurd rfl h
    | cons p rest => simp
  unfold pagename
  rw [if_neg hlen, feWithPages_pages, feWithPages_idx]
  unfold pyGet
  rw [if_neg (by decide : ¬ (0 : Int) ≤ -1)]
  have hpos : (0 : Int) ≤ (pages.length : Int) + -1 := by
    have : 1 ≤ pages.length := by
      cases pages with
      | nil => exact absurd rfl h
      | cons p rest => simp
    omega
  rw [if_pos hpos]
  have htn : ((pages.length : Int) + -1).toNat = pages.length - 1 := by omega
  rw [htn, getq_length_sub_one pages h]

/-- Witness for C10: two registered pages; the property returns the second
(most recently added), not the first. -/
theorem C10_default_pagename_is_last_page_witness :
    ([(⟨"a"⟩ : Page), ⟨"b"⟩] ≠ ([] : List Page))
    ∧ pagename (feWithPages [⟨"a"⟩, ⟨"b"⟩]) = .ok (feWithPages [⟨"a"⟩, ⟨"b"⟩], "b") :=
  ⟨by decide, C10_default_pagename_is_last_page [⟨"a"⟩, ⟨"b"⟩] (by decide)⟩

/-- C7: for every back-end state whose stored page name is not the
recognised `"entry page"`, the page dispatcher's selection step calls the
exit routine: the diagnostic names the unrecognised page, `exit program` is
sent to the peer, and the process dies abnormally instead of defaulting to
a page. -/
theorem C7_unknown_pagename_fatal (st : BES) (h : st.pagename_now ≠ "entry page") :
    select_page st =
      .fatal (be_send st "exit program" [])
        ("received an unknown page name from front end: " ++ st.pagename_now)
    ∧ ("exit program", ([] : Payload)) ∈ (be_send st "exit program" []).to_frontend := by
  constructor
  · unfold select_page be_exit_program
    rw [if_neg h]
  · simp [be_send]

/-- Witness for C7: the spec's concrete scenario, page name
`"unknown-page"`. -/
theorem C7_unknown_pagename_fatal_witness :
    ({ beInit with pagename_now := "unknown-page" } : BES).pagename_now ≠ "entry page"
    ∧ select_page { beInit with pagename_now := "unknown-page" } =
        .fatal (be_send { beInit with pagename_now := "unknown-page" } "exit program" [])
          "received an unknown page name from front end: unknown-page" :=
  ⟨by decide, (C7_unknown_pagename_fatal _ (by decide)).1⟩

theorem fe_dispatch_one_not_mem (st : FES) (tag : Tag) (data : Payload)
    (h : tag ∉ st.listeners) :
    fe_dispatch_one st tag data = .fatal st ("KeyError: " ++ tag) := by
  unfold fe_dispatch_one
  rw [if_neg h]

theorem be_dispatch_one_not_mem (st : BES) (tag : Tag) (data : Payload)
    (h : tag ∉ st.listeners) :
    be_dispatch_one st tag data = .fatal st ("KeyError: " ++ tag) := by
  unfold be_dispatch_one
  rw [if_neg h]

theorem page_pre_listeners (st : BES) (pr : Bool) (tag : Tag) :
    (page_pre st pr tag).1.listeners = st.listeners := by
  unfold page_pre
  split_ifs <;> simp [be_send]

theorem page_pre_invoked (st : BES) (pr : Bool) (tag : Tag) :
    (page_pre st pr tag).1.invoked = st.invoked := by
  unfold page_pre
  split_ifs <;> simp [be_send]

theorem page_pre_pagename (st : BES) (pr : Bool) (tag : Tag) :
    (page_pre st pr tag).1.pagename_now = st.pagename_now := by
  unfold page_pre
  split_ifs <;> simp [be_send]

/-- C8: in both processes, dispatching a message whose tag has no entry in
the listener table is fatal: the raised error reports the unknown tag, the
drain stops at that message (the result does not depend on what remains
queued behind it), and the message is not silently skipped (no invocation is
recorded for it). -/
theorem C8_missing_listener_fatal :
    (∀ (st : FES) (tag : Tag) (data : Payload) (rest : List Msg), tag ∉ st.listeners →
      one_frame_drain st ((tag, data) :: rest) = .fatal st ("KeyError: " ++ tag))
    ∧ (∀ (st : BES) (pr : Bool) (tag : Tag) (data : Payload) (rest : List Msg),
        tag ∉ st.listeners →
      ∃ st1, page_drain st pr ((tag, data) :: rest) = .fatal st1 ("KeyError: " ++ tag)
        ∧ st1.invoked = st.invoked ∧ st1.pagename_now = st.pagename_now) := by
  constructor
  · intro st tag data rest h
    unfold one_frame_drain
    rw [fe_dispatch_one_not_mem st tag data h]
  · intro st pr tag data rest h
    refine ⟨(page_pre st pr tag).1, ?_, page_pre_invoked st pr tag,
      page_pre_pagename st pr tag⟩
    unfold page_drain
    rw [be_dispatch_one_not_mem _ tag data (by rw [page_pre_listeners]; exact h)]

/-- Witness for C8: tag `"bogus"` is in neither listener table. -/
theorem C8_missing_listener_fatal_witness :
    ("bogus" ∉ feInit.listeners ∧ "bogus" ∉ beInit.listeners)
    ∧ one_frame_drain feInit [("bogus", []), ("exit program", [])] =
        .fatal feInit "KeyError: bogus"
    ∧ ∃ st1, page_drain beInit false [("bogus", []), ("exit program", [])] =
        .fatal st1 "KeyError: bogus" ∧ st1.invoked = beInit.invoked
        ∧ st1.pagename_now = beInit.pagename_now :=
  ⟨⟨by decide, by decide⟩,
   C8_missing_listener_fatal.1 feInit "bogus" [] [("exit program", [])] (by decide),
   C8_missing_listener_fatal.2 beInit false "bogus" [] [("exit program", [])] (by decide)⟩

/-- C9: at both handshake consumption points of the back-end — the
`front-end alive` check of `Base_Back_End.launch_process` and the
`front-end main loop launching` wait of `Back_End.launch_process` — exactly
one message is popped (the returned residual channel is the queue minus its
head), and success requires BOTH that no other message was queued and that
the tag is the expected one; violating either condition fails the run at
once (the `front-end alive` checker reports not-ready, the acknowledgement
wait dies on an uncaught assertion), with no retry. -/
theorem C9_singularity_and_tag_asserted :
    (∀ (st : BES) (m : Msg) (rest : List Msg),
      ((rest = [] ∧ m.1 = "front-end alive") →
        waitForAlive st (m :: rest) = (true, st, []))
      ∧ (¬ (rest = [] ∧ m.1 = "front-end alive") →
        waitForAlive st (m :: rest) =
          (false, be_send st "front end gave no sign of life: exiting program" [], rest)))
    ∧ (∀ (st : BES) (m : Msg) (rest : List Msg),
      ((rest = [] ∧ m.1 = "front-end main loop launching") →
        waitForAck st (m :: rest) = .dispatcher { st with pagename_now := "entry page" })
      ∧ (¬ (rest = [] ∧ m.1 = "front-end main loop launching") →
        ∃ d, waitForAck st (m :: rest) = .fatal st d)) := by
  constructor
  · intro st m rest
    obtain ⟨tag, data⟩ := m
    constructor
    · rintro ⟨hr, ht⟩
      simp only at ht
      subst hr
      simp [waitForAlive, ht]
    · intro hn
      simp only at hn
      simp [waitForAlive, hn]
  · intro st m rest
    obtain ⟨tag, data⟩ := m
    constructor
    · rintro ⟨hr, ht⟩
      simp only at ht
      subst hr
      simp [waitForAck, ht]
    · intro hn
      simp only at hn
      by_cases hr : rest = []
      · subst hr
        have ht : tag ≠ "front-end main loop launching" := by
          intro hc; exact hn ⟨rfl, hc⟩
        refine ⟨"expected message from front end: front-end main loop launching but received: "
          ++ tag, ?_⟩
        simp [waitForAck, ht]
      · refine ⟨"front end posted multiple messages when only waiting for front-end main loop launching", ?_⟩
        simp [waitForAck, hr]

/-- Witness for C9: the two canonical handshake messages, each alone in the
queue, pass; the same message with a second one queued fails. -/
theorem C9_singularity_and_tag_asserted_witness :
    waitForAlive beInit [("front-end alive", [])] = (true, beInit, [])
    ∧ waitForAck beInit [("front-end main loop launching", [])] =
        .dispatcher { beInit with pagename_now := "entry page" }
    ∧ ∃ d, waitForAck beInit
        [("front-end main loop launching", []), ("pagename request", [])] =
        .fatal beInit d :=
  ⟨(C9_singularity_and_tag_asserted.1 beInit ("front-end alive", []) []).1 ⟨rfl, rfl⟩,
   (C9_singularity_and_tag_asserted.2 beInit ("front-end main loop launching", []) []).1
     ⟨rfl, rfl⟩,
   (C9_singularity_and_tag_asserted.2 beInit ("front-end main loop launching", [])
     [("pagename request", [])]).2 (by simp)⟩

/-! ### One-shot listener (C3) -/

/-- C3 counterexample: dispatching `back-end initialised` through the
front-end table runs `_launch_main_loop`, which removes its own entry
(step a) and enters the run loop (step c) — but sends NOTHING: the
front-to-back channel still holds only the `front-end alive` message from
`__init__`, so the listener does not perform step (b), the
`front-end main loop launching` reply (that send lives in
`wait_for_backend_ready`, outside the listener). -/
theorem C3_listener_reply_counterexample :
    one_frame_drain feInit [("back-end initialised", [])] =
      .ok ⟨["exit program", "pagename request"], [], -1, [("front-end alive", [])],
           true, [("back-end initialised", none)]⟩
    ∧ ("front-end main loop launching", ([] : Payload)) ∉
        ([("front-end alive", [])] : List Msg)
    ∧ "back-end initialised" ∉ (["exit program", "pagename request"] : List Tag) := by
  decide

/-- C3 amended: the `back-end initialised` listener performs only (a)
self-removal and (c) entry into the run loop; the (b) reply
`front-end main loop launching` is sent by `wait_for_backend_ready` as part
of handling the message, before it invokes the listener; a second delivery
of the tag then finds no listener and dispatching it is a fatal `KeyError`
rather than a second firing. -/
theorem C3_handshake_listener_one_shot (st : FES) (h : st.listeners = frontEndListenerKeys) :
    wait_for_backend_ready st [("back-end initialised", [])] =
      .ok { st with listeners := ["exit program", "pagename request"],
                    running := true,
                    to_backend := st.to_backend ++ [("front-end main loop launching", [])],
                    invoked := st.invoked ++ [("back-end initialised", none)] }
    ∧ (∀ st2 : FES, st2.listeners = ["exit program", "pagename request"] →
        fe_dispatch_one st2 "back-end initialised" [] =
          .fatal st2 ("KeyError: " ++ "back-end initialised")) := by
  constructor
  · unfold wait_for_backend_ready fe_dispatch_one fe_invoke fe_send
    simp [h, frontEndListenerKeys]
  · intro st2 h2
    unfold fe_dispatch_one
    rw [if_neg (by rw [h2]; decide)]

/-- Witness for C3 (amended): the initial front-end state. -/
theorem C3_handshake_listener_one_shot_witness :
    feInit.listeners = frontEndListenerKeys
    ∧ wait_for_backend_ready feInit [("back-end initialised", [])] =
        .ok { feInit with
              listeners := ["exit program", "pagename request"]
              running := true
              to_backend := feInit.to_backend ++ [("front-end main loop launching", [])]
              invoked := feInit.invoked ++ [("back-end initialised", none)] } :=
  ⟨rfl, (C3_handshake_listener_one_shot feInit rfl).1⟩

/-! ### Dispatch-loop drains (C4) -/

theorem pagename_ok_eq (st : FES) (p : FES × String) (h : pagename st = .ok p) :
    p.1 = st := by
  unfold pagename at h
  split_ifs at h with hlen
  · unfold fe_exit_program at h
    cases h
  · rcases hg : pyGet st.existing_pages st.active_page_idx with _ | q
    · rw [hg] at h; cases h
    · rw [hg] at h; cases h; rfl

theorem fe_invoke_ok_invoked (st : FES) (tag : Tag) (st1 : FES)
    (h : fe_invoke st tag = .ok st1) : st1.invoked = st.invoked := by
  unfold fe_invoke at h
  split_ifs at h with h1 h2 h3
  · cases h; rfl
  · unfold fe_exit_program at h; cases h
  · rcases hp : pagename st with p | ⟨s, d⟩
    · rw [hp] at h
      cases h
      have := pagename_ok_eq st p hp
      simp [fe_send, this]
    · rw [hp] at h; cases h

theorem be_invoke_ok_invoked (st : BES) (tag : Tag) (data : Payload) (st1 : BES)
    (h : be_invoke st tag data = .ok st1) : st1.invoked = st.invoked := by
  unfold be_invoke at h
  split_ifs at h with h1 h2
  · unfold be_exit_program at h; cases h
  · cases data with
    | nil => cases h
    | cons p ps => cases h; rfl

/-- C4 counterexample: the front-end's `one_frame` drain takes a message
with a non-empty payload and invokes its listener with NO argument
(`self.listeners[msg]()` — the popped `data` is discarded), so the listener
is not invoked with the message's payload as argument. -/
theorem C4_payload_discarded_counterexample :
    resInvoked (one_frame_drain (feWithPages [⟨"entry page"⟩])
        [("pagename request", ["x"])]) = [("pagename request", none)]
    ∧ ("pagename request", some (["x"] : Payload)) ∉
      resInvoked (one_frame_drain (feWithPages [⟨"entry page"⟩])
        [("pagename request", ["x"])]) := by
  decide

/-- C4 amended: each drain consumes every currently available inbound
message in arrival order — but the front-end's `one_frame` invokes each
listener with no argument (payload discarded), while the back-end's
`page_dispatcher` drain passes each payload; and `loop_entry_page`'s drain
decides whether to continue from the OUTBOUND channel's emptiness,
consuming nothing when `to_frontend` is empty regardless of pending inbound
messages. -/
theorem C4_drain_order_and_arguments :
    (∀ (st : FES) (inbox : List Msg) (st1 : FES),
      one_frame_drain st inbox = .ok st1 →
      st1.invoked = st.invoked ++ inbox.map (fun m => (m.1, (none : Option Payload))))
    ∧ (∀ (st : BES) (pr : Bool) (inbox : List Msg) (st1 : BES) (pr1 : Bool),
      page_drain st pr inbox = .ok st1 pr1 →
      st1.invoked = st.invoked ++ inbox.map (fun m => (m.1, some m.2)))
    ∧ (∀ (st : BES) (inbox : List Msg), st.to_frontend = [] →
      entry_drain st inbox = .ok st inbox) := by
  refine ⟨?_, ?_, ?_⟩
  · intro st inbox
    induction inbox generalizing st with
    | nil => intro st1 h; cases h; simp
    | cons m rest ih =>
      intro st1 h
      obtain ⟨tag, data⟩ := m
      unfold one_frame_drain fe_dispatch_one at h
      by_cases hmem : tag ∈ st.listeners
      · rw [if_pos hmem] at h
        rcases hv : fe_invoke { st with invoked := st.invoked ++ [(tag, none)] } tag
            with stA | ⟨s, d⟩
        · rw [hv] at h
          have hA := fe_invoke_ok_invoked _ _ _ hv
          have hr := ih stA st1 h
          rw [hr, hA]
          simp
        · rw [hv] at h; cases h
      · rw [if_neg hmem] at h; cases h
  · intro st pr inbox
    induction inbox generalizing st pr with
    | nil => intro st1 pr1 h; cases h; simp
    | cons m rest ih =>
      intro st1 pr1 h
      obtain ⟨tag, data⟩ := m
      unfold page_drain be_dispatch_one at h
      by_cases hmem : tag ∈ (page_pre st pr tag).1.listeners
      · rw [if_pos hmem] at h
        rcases hv : be_invoke { (page_pre st pr tag).1 with
            invoked := (page_pre st pr tag).1.invoked ++ [(tag, some data)]
            events := (page_pre st pr tag).1.events ++ [.dispatched tag] } tag data
            with stA | ⟨s, d⟩
        · rw [hv] at h
          have hA := be_invoke_ok_invoked _ _ _ _ hv
          have hr := ih stA (page_pre st pr tag).2 st1 pr1 h
          rw [hr, hA]
          simp [page_pre_invoked]
        · rw [hv] at h; cases h
      · rw [if_neg hmem] at h; cases h
  · intro st inbox h
    cases inbox with
    | nil => unfold entry_drain; rw [if_pos h]
    | cons m rest =>
      obtain ⟨tag, data⟩ := m
      unfold entry_drain
      rw [if_pos h]

/-- Witness for C4 (amended): concrete drains on both sides, plus an
entry-page drain that consumes nothing although inbound messages are
pending. -/
theorem C4_drain_order_and_arguments_witness :
    (one_frame_drain (feWithPages [⟨"entry page"⟩]) [("pagename request", ["y"])] =
      .ok { feWithPages [⟨"entry page"⟩] with
            to_backend := (feWithPages [⟨"entry page"⟩]).to_backend
              ++ [("pagename received", ["entry page"])]
            invoked := [("pagename request", none)] }
    ∧ ({ feWithPages [⟨"entry page"⟩] with
            to_backend := (feWithPages [⟨"entry page"⟩]).to_backend
              ++ [("pagename received", ["entry page"])]
            invoked := [("pagename request", none)] } : FES).invoked =
        (feWithPages [⟨"entry page"⟩]).invoked
          ++ ([("pagename request", ["y"])] : List Msg).map (fun m => (m.1, (none : Option Payload))))
    ∧ (page_drain beInit false [("pagename received", ["entry page"])] =
        .ok { beInit with
              pagename_now := "entry page"
              invoked := [("pagename received", some ["entry page"])]
              events := [.dispatched "pagename received"] } true
    ∧ ({ beInit with
              pagename_now := "entry page"
              invoked := [("pagename received", some ["entry page"])]
              events := [.dispatched "pagename received"] } : BES).invoked =
        beInit.invoked ++ ([("pagename received", ["entry page"])] : List Msg).map
          (fun m => (m.1, some m.2)))
    ∧ (beInit.to_frontend = [] ∧
        entry_drain beInit [("pagename received", ["entry page"])] =
          .ok beInit [("pagename received", ["entry page"])]) :=
  ⟨⟨by decide, C4_drain_order_and_arguments.1 (feWithPages [⟨"entry page"⟩])
      [("pagename request", ["y"])] _ (by decide)⟩,
   ⟨by decide, C4_drain_order_and_arguments.2.1 beInit false
      [("pagename received", ["entry page"])] _ true (by decide)⟩,
   ⟨rfl, C4_drain_order_and_arguments.2.2 beInit
      [("pagename received", ["entry page"])] rfl⟩⟩

/-! ### Re-send ordering in the page-name poll (C5) -/

theorem be_invoke_events (st : BES) (tag : Tag) (data : Payload) :
    ∃ t, resEvents (be_invoke st tag data) = st.events ++ t := by
  unfold be_invoke
  split_ifs with h1 h2
  · exact ⟨[.sent "exit program"], by simp [be_exit_program, be_send, resEvents]⟩
  · cases data with
    | nil => exact ⟨[], by simp [resEvents]⟩
    | cons p ps => exact ⟨[], by simp [resEvents]⟩
  · exact ⟨[], by simp [resEvents]⟩

theorem be_dispatch_one_events_mem (st : BES) (tag : Tag) (data : Payload)
    (h : tag ∈ st.listeners) :
    ∃ t, resEvents (be_dispatch_one st tag data) =
      st.events ++ [BEv.dispatched tag] ++ t := by
  unfold be_dispatch_one
  rw [if_pos h]
  obtain ⟨t, ht⟩ := be_invoke_events
    { st with invoked := st.invoked ++ [(tag, some data)]
              events := st.events ++ [.dispatched tag] } tag data
  exact ⟨t, by simpa using ht⟩

theorem be_dispatch_one_events_mono (st : BES) (tag : Tag) (data : Payload) :
    ∃ t, resEvents (be_dispatch_one st tag data) = st.events ++ t := by
  by_cases h : tag ∈ st.listeners
  · obtain ⟨t, ht⟩ := be_dispatch_one_events_mem st tag data h
    exact ⟨[BEv.dispatched tag] ++ t, by simpa [List.append_assoc] using ht⟩
  · rw [be_dispatch_one_not_mem st tag data h]
    exact ⟨[], by simp [resEvents]⟩

theorem page_pre_events (st : BES) (pr : Bool) (tag : Tag) :
    ∃ t, (page_pre st pr tag).1.events = st.events ++ t := by
  unfold page_pre
  split_ifs
  · exact ⟨[], by simp⟩
  · exact ⟨[.sent "pagename request"], by simp [be_send]⟩
  · exact ⟨[], by simp⟩

theorem page_drain_events_mono (inbox : List Msg) : ∀ (st : BES) (pr : Bool),
    ∃ t, dresEvents (page_drain st pr inbox) = st.events ++ t := by
  induction inbox with
  | nil => intro st pr; exact ⟨[], by simp [page_drain, dresEvents]⟩
  | cons m rest ih =>
    intro st pr
    obtain ⟨tag, data⟩ := m
    obtain ⟨t0, h0⟩ := page_pre_events st pr tag
    obtain ⟨t1, h1⟩ := be_dispatch_one_events_mono (page_pre st pr tag).1 tag data
    unfold page_drain
    rcases hv : be_dispatch_one (page_pre st pr tag).1 tag data with st2 | ⟨s, d⟩
    · show ∃ t, dresEvents (page_drain st2 (page_pre st pr tag).2 rest) = st.events ++ t
      obtain ⟨t2, h2⟩ := ih st2 (page_pre st pr tag).2
      rw [hv] at h1
      simp only [resEvents] at h1
      exact ⟨t0 ++ t1 ++ t2, by rw [h2, h1, h0]; simp⟩
    · show ∃ t, dresEvents (DRes.fatal s d) = st.events ++ t
      rw [hv] at h1
      simp only [resEvents] at h1
      exact ⟨t0 ++ t1, by simp [dresEvents, h1, h0]⟩

theorem page_pre_of_empty (st : BES) (pr : Bool) (tag : Tag)
    (hne : tag ≠ "pagename received") (h : st.to_frontend = []) :
    page_pre st pr tag = (be_send st "pagename request" [], pr) := by
  unfold page_pre
  rw [if_neg hne, if_pos h]

theorem page_pre_of_nonempty (st : BES) (pr : Bool) (tag : Tag)
    (hne : tag ≠ "pagename received") (h : st.to_frontend ≠ []) :
    page_pre st pr tag = (st, pr) := by
  unfold page_pre
  rw [if_neg hne, if_neg h]

/-- C5 counterexample: the back-end's page-name poll receives an
`exit program` message (a non-matching tag) while its outbound channel is
empty: the re-sent `pagename request` is put on the channel BEFORE the
message is dispatched through the listener table, not after — the event log
is re-send, then dispatch, then the listener's own `exit program` send. -/
theorem C5_resend_before_dispatch_counterexample :
    dresEvents (page_drain beInit false [("exit program", ["stop"])]) =
      [.sent "pagename request", .dispatched "exit program", .sent "exit program"]
    ∧ (dresEvents (page_drain beInit false [("exit program", ["stop"])])).indexOf
        (BEv.sent "pagename request") <
      (dresEvents (page_drain beInit false [("exit program", ["stop"])])).indexOf
        (BEv.dispatched "exit program") := by
  decide

/-- C5 amended: on taking a message whose tag is not `pagename received`,
the back-end re-sends `pagename request` exactly when its own outbound
channel is empty at that moment, and the re-send is placed BEFORE the
message is dispatched through the listener table; when the outbound channel
is non-empty the message is dispatched without any re-send. -/
theorem C5_resend_condition_and_order (st : BES) (pr : Bool) (tag : Tag)
    (data : Payload) (rest : List Msg)
    (hne : tag ≠ "pagename received") (hmem : tag ∈ st.listeners) :
    (st.to_frontend = [] →
      ∃ t, dresEvents (page_drain st pr ((tag, data) :: rest)) =
        st.events ++ [BEv.sent "pagename request", BEv.dispatched tag] ++ t)
    ∧ (st.to_frontend ≠ [] →
      ∃ t, dresEvents (page_drain st pr ((tag, data) :: rest)) =
        st.events ++ [BEv.dispatched tag] ++ t) := by
  constructor
  · intro hemp
    have hpre := page_pre_of_empty st pr tag hne hemp
    have hmem1 : tag ∈ (page_pre st pr tag).1.listeners := by
      rw [page_pre_listeners]; exact hmem
    obtain ⟨t1, h1⟩ := be_dispatch_one_events_mem (page_pre st pr tag).1 tag data hmem1
    unfold page_drain
    rcases hv : be_dispatch_one (page_pre st pr tag).1 tag data with st2 | ⟨s, d⟩
    · show ∃ t, dresEvents (page_drain st2 (page_pre st pr tag).2 rest) = _
      obtain ⟨t2, h2⟩ := page_drain_events_mono rest st2 (page_pre st pr tag).2
      rw [hv] at h1
      simp only [resEvents] at h1
      simp only [hpre] at h1 h2 ⊢
      refine ⟨t1 ++ t2, ?_⟩
      simp [h2, h1, be_send]
    · show ∃ t, dresEvents (DRes.fatal s d) = _
      rw [hv] at h1
      simp only [resEvents] at h1
      simp only [hpre] at h1
      refine ⟨t1, ?_⟩
      simp [dresEvents, h1, be_send]
  · intro hfull
    have hpre := page_pre_of_nonempty st pr tag hne hfull
    have hmem1 : tag ∈ (page_pre st pr tag).1.listeners := by
      rw [page_pre_listeners]; exact hmem
    obtain ⟨t1, h1⟩ := be_dispatch_one_events_mem (page_pre st pr tag).1 tag data hmem1
    unfold page_drain
    rcases hv : be_dispatch_one (page_pre st pr tag).1 tag data with st2 | ⟨s, d⟩
    · show ∃ t, dresEvents (page_drain st2 (page_pre st pr tag).2 rest) = _
      obtain ⟨t2, h2⟩ := page_drain_events_mono rest st2 (page_pre st pr tag).2
      rw [hv] at h1
      simp only [resEvents] at h1
      simp only [hpre] at h1 h2 ⊢
      refine ⟨t1 ++ t2, ?_⟩
      simp [h2, h1]
    · show ∃ t, dresEvents (DRes.fatal s d) = _
      rw [hv] at h1
      simp only [resEvents] at h1
      simp only [hpre] at h1
      refine ⟨t1, ?_⟩
      simp [dresEvents, h1]

/-- Witness for C5 (amended): the counterexample scenario (empty outbound
channel) and a scenario with a request already in flight. -/
theorem C5_resend_condition_and_order_witness :
    (("exit program" : Tag) ≠ "pagename received"
      ∧ "exit program" ∈ beInit.listeners ∧ beInit.to_frontend = [])
    ∧ (∃ t, dresEvents (page_drain beInit false [("exit program", ["stop"])]) =
        beInit.events ++ [BEv.sent "pagename request", BEv.dispatched "exit program"] ++ t)
    ∧ (∃ t, dresEvents (page_drain
          { beInit with to_frontend := [("pagename request", [])] } false
          [("exit program", ["stop"])]) =
        ({ beInit with to_frontend := [("pagename request", [])] } : BES).events
          ++ [BEv.dispatched "exit program"] ++ t) :=
  ⟨⟨by decide, by decide, rfl⟩,
   (C5_resend_condition_and_order beInit false "exit program" ["stop"] []
      (by decide) (by decide)).1 rfl,
   (C5_resend_condition_and_order { beInit with to_frontend := [("pagename request", [])] }
      false "exit program" ["stop"] [] (by decide) (by decide)).2 (by decide)⟩

/-! ### Page-session state (C6) -/

theorem waitForAck_dispatcher_pagename (st : BES) (fb : List Msg) (s : BES)
    (h : waitForAck st fb = .dispatcher s) : s.pagename_now = "entry page" := by
  cases fb with
  | nil => simp [waitForAck] at h
  | cons m rest =>
    obtain ⟨tag, data⟩ := m
    simp only [waitForAck] at h
    split_ifs at h
    cases h
    rfl

/-- C6 counterexample: a back-end that completes the handshake having never
received any `pagename received` message (its invocation record is empty)
enters the page dispatcher with `pagename_now = "entry page"` — the
assignment at step 5 of `Back_End.launch_process` — and NOT the initial
sentinel `"no page"`. -/
theorem C6_sentinel_overwritten_counterexample :
    be_launch beInit [("front-end alive", [])] [("front-end main loop launching", [])] =
      .dispatcher { beInit with
        to_frontend := [("back-end initialised", [])]
        pagename_now := "entry page"
        events := [.sent "back-end initialised"] }
    ∧ ("entry page" : String) ≠ "no page"
    ∧ ({ beInit with
        to_frontend := [("back-end initialised", [])]
        pagename_now := "entry page"
        events := [.sent "back-end initialised"] } : BES).invoked = [] := by
  decide

/-- C6 amended: `pagename_now` starts at the sentinel `"no page"`; besides
the `pagename received` listener (which stores the first payload element),
it is also mutated by the unconditional assignment at step 5 of
`Back_End.launch_process`, which sets it to `"entry page"` just before the
page dispatcher is entered — so the dispatcher is entered with
`"entry page"`, not the sentinel; no other listener behaviour changes it. -/
theorem C6_pagename_now_mutations :
    beInit.pagename_now = "no page"
    ∧ (∀ (st : BES) (fb1 fb2 : List Msg) (st1 : BES),
        be_launch st fb1 fb2 = .dispatcher st1 → st1.pagename_now = "entry page")
    ∧ (∀ (st : BES) (tag : Tag) (data : Payload), tag ≠ "pagename received" →
        resPagenameNow (be_invoke st tag data) = st.pagename_now)
    ∧ (∀ (st : BES) (p : String) (ps : Payload),
        be_invoke st "pagename received" (p :: ps) = .ok { st with pagename_now := p }) := by
  refine ⟨rfl, ?_, ?_, ?_⟩
  · intro st fb1 fb2 st1 h
    unfold be_launch at h
    rcases hw : waitForAlive st fb1 with ⟨b, stA, rem⟩
    rw [hw] at h
    cases b
    · cases h
    · dsimp only at h
      rcases ha : waitForAck (be_send stA "back-end initialised" []) fb2
        with s | ⟨s, n⟩ | ⟨s, d⟩
      · rw [ha] at h
        cases h
        exact waitForAck_dispatcher_pagename _ fb2 _ ha
      · rw [ha] at h; cases h
      · rw [ha] at h; cases h
  · intro st tag data hne
    unfold be_invoke
    split_ifs with h1
    · simp [be_exit_program, be_send, resPagenameNow]
    · simp [resPagenameNow]
  · intro st p ps
    unfold be_invoke
    rw [if_neg (by decide), if_pos rfl]

/-- Witness for C6 (amended): the concrete handshake-completing launch, and
the `exit program` listener leaving `pagename_now` untouched. -/
theorem C6_pagename_now_mutations_witness :
    ({ beInit with
        to_frontend := [("back-end initialised", [])]
        pagename_now := "entry page"
        events := [.sent "back-end initialised"] } : BES).pagename_now = "entry page"
    ∧ resPagenameNow (be_invoke beInit "exit program" []) = beInit.pagename_now :=
  ⟨C6_pagename_now_mutations.2.1 beInit [("front-end alive", [])]
      [("front-end main loop launching", [])] _ (by decide),
   C6_pagename_now_mutations.2.2.1 beInit "exit program" [] (by decide)⟩

/-! ### Liveness waits and their bounds (C2) -/

theorem ackTicks_eq_of_le : ∀ (k w : Nat), 50 - w = k → w ≤ 50 → ackTicks w = 51 := by
  intro k
  induction k with
  | zero =>
    intro w h1 h2
    have hw : w = 50 := by omega
    subst hw
    unfold ackTicks
    norm_num
  | succ k ih =>
    intro w h1 h2
    have hlt : ¬ 50 < w + 1 := by omega
    unfold ackTicks
    rw [if_neg hlt]
    exact ih (w + 1) (by omega) (by omega)

theorem ackTicks_zero : ackTicks 0 = 51 :=
  ackTicks_eq_of_le 50 0 rfl (by omega)

/-- C2 counterexample: when the back-end starts its wait for
`front-end alive` on an empty channel, it fails IMMEDIATELY — after 0 ticks,
strictly below the 50-tick (5.0 time-unit) bound — and the message it emits
carries the diagnostic text as its tag, not `exit program`. -/
theorem C2_no_polling_for_alive_counterexample :
    be_launch beInit [] [] =
      .noAlive (be_send beInit "front end gave no sign of life: exiting program" []) 0
    ∧ (0 : Nat) < 50
    ∧ ∀ m ∈ (be_send beInit "front end gave no sign of life: exiting program" []).to_frontend,
        m.1 ≠ "exit program" := by
  decide

/-- C2 amended: the wait for `front-end alive` does not sleep at all — on an
empty channel it fails after 0 ticks, sending a message tagged with the
diagnostic string, and the back-end never enters steady state; the
fixed-increment polling with the 5.0-unit bound (50 ticks of 0.1) instead
governs the later wait for `front-end main loop launching`, where, if no
message ever arrives, the back-end calls the exit routine (sending
`exit program`) after 51 ticks = 5.1 units — above the bound and at most
the bound plus one poll interval. -/
theorem C2_liveness_wait_bounds :
    (∀ (st : BES) (fbAck : List Msg),
      be_launch st [] fbAck =
        .noAlive (be_send st "front end gave no sign of life: exiting program" []) 0)
    ∧ (∀ st : BES, be_launch st [("front-end alive", [])] [] =
        .timeout (be_send (be_send st "back-end initialised" []) "exit program" [])
          (ackTicks 0))
    ∧ ackTicks 0 = 51 ∧ 50 < ackTicks 0 ∧ ackTicks 0 ≤ 50 + 1 := by
  refine ⟨?_, ?_, ackTicks_zero, ?_, ?_⟩
  · intro st fbAck
    rfl
  · intro st
    simp [be_launch, waitForAlive, waitForAck]
  · rw [ackTicks_zero]; omega
  · rw [ackTicks_zero]

end GuiFw

